import Mathlib

/-!
Verification of the capital-constrained decision-and-execution engine of the
solana_cripto_trade_agent repository.

The Python source is shallowly embedded over exact rationals (ℚ): every
`float` of the source becomes a `ℚ`, module-level `settings.*` reads become
explicit parameters, and code that raises an exception is modelled with
`Except` / `Option`.  Wall-clock timestamps (`time.time()`) are I/O and are
omitted from the embedded records; no claim concerns them.
-/

namespace SolanaTrade

/-! ## Portfolio ledger (src/execution/portfolio.py) -/

/-- The dataclass `Portfolio` (src/execution/portfolio.py lines 7-30).
The string symbol fields and the unused `allocated_capital` field are
omitted; the four numeric fields are the ledger state. -/
structure Portfolio where
  base_balance : ℚ
  quote_balance : ℚ
  peak_value : ℚ
  trading_capital : ℚ
deriving Repr, DecidableEq

/-- `Portfolio.__post_init__` for a default-constructed portfolio
(lines 21-30): `trading_capital` is taken from settings, `quote_balance`
(initially 0.0) is set to the trading capital, and `peak_value` (initially
0.0) is set to the quote balance. -/
def Portfolio.init (trading_capital_sol : ℚ) : Portfolio :=
  { base_balance := 0
    quote_balance := trading_capital_sol
    peak_value := trading_capital_sol
    trading_capital := trading_capital_sol }

/-- `Portfolio.total_value` (lines 59-61): quote balance plus base asset
marked at the given price. -/
def Portfolio.total_value (p : Portfolio) (price : ℚ) : ℚ :=
  p.quote_balance + p.base_balance * price

/-- `Portfolio.get_position_value_sol` (lines 63-65). -/
def Portfolio.get_position_value_sol (p : Portfolio) : ℚ :=
  p.base_balance

/-- `Portfolio.get_available_capital` (lines 67-70):
`max(0, trading_capital - used_capital)`. -/
def Portfolio.get_available_capital (p : Portfolio) : ℚ :=
  max 0 (p.trading_capital - p.get_position_value_sol)

/-- `Portfolio.calculate_max_trade_size` (lines 72-80) with
`settings.max_position_size_pct` passed explicitly. -/
def Portfolio.calculate_max_trade_size (max_position_size_pct : ℚ) (p : Portfolio) : ℚ :=
  max 0 (p.trading_capital * (max_position_size_pct / 100) - abs p.base_balance)

/-- Result dictionary of `Portfolio.validate_trade_size` (lines 82-102):
keys `valid`, `reason` and, on the invalid branches only, `max_allowed`. -/
structure PValidation where
  valid : Bool
  reason : String
  max_allowed : Option ℚ
deriving Repr, DecidableEq

/-- `Portfolio.validate_trade_size` (lines 82-102), with
`settings.max_position_size_pct` passed explicitly.  The reason strings
keep the static prefix of the source's f-strings. -/
def Portfolio.validate_trade_size (max_position_size_pct : ℚ) (p : Portfolio)
    (trade_size_sol : ℚ) : PValidation :=
  let current_position := abs p.base_balance
  let new_position := current_position + abs trade_size_sol
  if p.trading_capital < new_position then
    { valid := false
      reason := "Exceeds trading capital"
      max_allowed := some (p.trading_capital - current_position) }
  else
    let max_position := p.trading_capital * (max_position_size_pct / 100)
    if max_position < new_position then
      { valid := false
        reason := "Exceeds max position size"
        max_allowed := some (max_position - current_position) }
    else
      { valid := true, reason := "Trade size valid", max_allowed := none }

/-- `Portfolio.update_from_trade` (lines 32-52), real-money branch
(`settings.simulation_mode` false): BUY adds the quantity to the base
balance and subtracts `quantity * price + fee` from the quote balance,
SELL does the reverse; any other side leaves the portfolio unchanged.
The simulation branch delegates to the trading simulator, embedded
separately below. -/
def Portfolio.update_from_trade_real (p : Portfolio) (side : String)
    (quantity price fee : ℚ) : Portfolio :=
  if side = "BUY" then
    { p with base_balance := p.base_balance + quantity
             quote_balance := p.quote_balance - (quantity * price + fee) }
  else if side = "SELL" then
    { p with base_balance := p.base_balance - quantity
             quote_balance := p.quote_balance + (quantity * price - fee) }
  else p

/-- The `capital_utilization_pct` entry of `Portfolio.as_dict`
(line 111): `position_value / trading_capital * 100` guarded by
`trading_capital > 0`, else the safe default 0. -/
def Portfolio.capital_utilization_pct (p : Portfolio) : ℚ :=
  if 0 < p.trading_capital then p.get_position_value_sol / p.trading_capital * 100 else 0

/-! ## Capital manager (src/execution/capital_manager.py) -/

/-- Result dictionary of `TradingCapitalManager.validate_trade_size`
(lines 121-159): keys `valid`, `reason`, `max_allowed`, `suggested_size`,
present on every branch. -/
structure CMValidation where
  valid : Bool
  reason : String
  max_allowed : ℚ
  suggested_size : ℚ
deriving Repr, DecidableEq

namespace TradingCapitalManager

/-- `TradingCapitalManager.validate_trade_size` (lines 121-159).  The
instance fields `self.trading_capital` and `self.max_position_size_pct`
(copied from settings in `__init__`) are passed explicitly. -/
def validate_trade_size (trading_capital max_position_size_pct : ℚ)
    (trade_size_sol current_position : ℚ) : CMValidation :=
  let new_position := abs (current_position + trade_size_sol)
  if trading_capital < new_position then
    { valid := false
      reason := "Trade would exceed trading capital"
      max_allowed := trading_capital - abs current_position
      suggested_size := max 0 (trading_capital - abs current_position) }
  else
    let max_allowed := trading_capital * (max_position_size_pct / 100)
    if max_allowed < new_position then
      { valid := false
        reason := "Trade would exceed max position size"
        max_allowed := max_allowed - abs current_position
        suggested_size := max 0 (max_allowed - abs current_position) }
    else
      { valid := true
        reason := "Trade size is valid"
        max_allowed := max_allowed
        suggested_size := trade_size_sol }

end TradingCapitalManager

/-- C1: if the capital manager's validation accepts a trade then the
resulting position `current + size` is at most
`min trading_capital (trading_capital * max_position_pct / 100)` and the
returned suggested size is the requested size unchanged (no silent
clamping); if it rejects, the result carries a non-empty reason together
with `max_allowed` and the suggested size clamped at zero. -/
theorem capital_manager_validate_bounds
    (trading_capital max_position_size_pct trade_size current : ℚ)
    (hcap : 0 < trading_capital)
    (hpct0 : 0 < max_position_size_pct) (hpct1 : max_position_size_pct ≤ 100)
    (hcur : 0 ≤ current) :
    ((TradingCapitalManager.validate_trade_size trading_capital max_position_size_pct
        trade_size current).valid = true →
      current + trade_size ≤
        min trading_capital (trading_capital * (max_position_size_pct / 100)) ∧
      (TradingCapitalManager.validate_trade_size trading_capital max_position_size_pct
        trade_size current).suggested_size = trade_size) ∧
    ((TradingCapitalManager.validate_trade_size trading_capital max_position_size_pct
        trade_size current).valid = false →
      (TradingCapitalManager.validate_trade_size trading_capital max_position_size_pct
        trade_size current).reason ≠ "" ∧
      (TradingCapitalManager.validate_trade_size trading_capital max_position_size_pct
        trade_size current).suggested_size =
        max 0 ((TradingCapitalManager.validate_trade_size trading_capital
          max_position_size_pct trade_size current).max_allowed)) := by
  simp only [TradingCapitalManager.validate_trade_size]
  split_ifs with h1 h2
  · refine ⟨by simp, fun _ => ⟨by simp, by simp⟩⟩
  · refine ⟨by simp, fun _ => ⟨by simp, by simp⟩⟩
  · refine ⟨fun _ => ⟨?_, by simp⟩, by simp⟩
    push_neg at h1 h2
    have habs : current + trade_size ≤ abs (current + trade_size) := le_abs_self _
    exact le_min (le_trans habs h1) (le_trans habs h2)

/-- Witness for `capital_manager_validate_bounds` at capital 10, max
position 80%, requested size 5, current position 2. -/
theorem capital_manager_validate_bounds_witness :
    ((TradingCapitalManager.validate_trade_size 10 80 5 2).valid = true →
      (2 : ℚ) + 5 ≤ min 10 (10 * (80 / 100)) ∧
      (TradingCapitalManager.validate_trade_size 10 80 5 2).suggested_size = 5) ∧
    ((TradingCapitalManager.validate_trade_size 10 80 5 2).valid = false →
      (TradingCapitalManager.validate_trade_size 10 80 5 2).reason ≠ "" ∧
      (TradingCapitalManager.validate_trade_size 10 80 5 2).suggested_size =
        max 0 ((TradingCapitalManager.validate_trade_size 10 80 5 2).max_allowed)) :=
  capital_manager_validate_bounds 10 80 5 2 (by norm_num) (by norm_num) (by norm_num)
    (by norm_num)


/-! ## Risk governor (src/strategy/risk.py)

Concrete portfolios below are written with the anonymous constructor, in
field order `⟨base_balance, quote_balance, peak_value, trading_capital⟩`. -/

/-- `exceed_max_drawdown` (src/strategy/risk.py lines 7-20) with
`settings.max_drawdown_pct` passed explicitly.  The Python function
mutates `portfolio.peak_value` in place and returns a bool; the embedding
returns the breach flag together with the updated portfolio.  When
`peak_value = 0` and the current value does not exceed it, the Python
division `(peak - current) / peak` raises `ZeroDivisionError`; that fault
is modelled as `none`. -/
def exceed_max_drawdown (p : Portfolio) (current_price max_drawdown_pct : ℚ) :
    Option (Bool × Portfolio) :=
  let current_value := p.total_value current_price
  if p.peak_value < current_value then
    some (false, { p with peak_value := current_value })
  else if p.peak_value = 0 then
    none
  else
    some (decide (max_drawdown_pct ≤ (p.peak_value - current_value) / p.peak_value * 100), p)

/-- C3: the risk check computes `current_value = cash + position * price`;
a new high updates the peak and reports no breach, otherwise it reports a
breach exactly when `(peak - current) / peak * 100 ≥ max_drawdown_pct`,
and the boundary is exact: with peak 1000 and threshold 20%, a current
value of 800.000001 does not breach while 800 does. -/
theorem risk_check_exact (p : Portfolio) (price mdd : ℚ) (hpeak : 0 < p.peak_value) :
    (p.peak_value < p.total_value price →
      exceed_max_drawdown p price mdd =
        some (false, { p with peak_value := p.total_value price })) ∧
    (p.total_value price ≤ p.peak_value →
      exceed_max_drawdown p price mdd =
        some (decide (mdd ≤ (p.peak_value - p.total_value price) / p.peak_value * 100), p)) ∧
    exceed_max_drawdown ⟨0, 800 + 1 / 1000000, 1000, 1⟩ 0 20 =
      some (false, ⟨0, 800 + 1 / 1000000, 1000, 1⟩) ∧
    exceed_max_drawdown ⟨0, 800, 1000, 1⟩ 0 20 = some (true, ⟨0, 800, 1000, 1⟩) := by
  refine ⟨fun h => ?_, fun h => ?_, ?_, ?_⟩
  · simp only [exceed_max_drawdown]
    rw [if_pos h]
  · simp only [exceed_max_drawdown]
    rw [if_neg (not_lt.mpr h), if_neg (ne_of_gt hpeak)]
  · simp only [exceed_max_drawdown, Portfolio.total_value]
    norm_num
  · simp only [exceed_max_drawdown, Portfolio.total_value]
    norm_num

/-- Witness for `risk_check_exact` at a portfolio with peak 1000 and
current value 1100 (a new high). -/
theorem risk_check_exact_witness :
    ((⟨0, 1100, 1000, 1⟩ : Portfolio).peak_value <
        (⟨0, 1100, 1000, 1⟩ : Portfolio).total_value 0 →
      exceed_max_drawdown ⟨0, 1100, 1000, 1⟩ 0 20 =
        some (false, ⟨0, 1100, 1100, 1⟩)) ∧
    ((⟨0, 1100, 1000, 1⟩ : Portfolio).total_value 0 ≤
        (⟨0, 1100, 1000, 1⟩ : Portfolio).peak_value →
      exceed_max_drawdown ⟨0, 1100, 1000, 1⟩ 0 20 =
        some (decide ((20 : ℚ) ≤
          (((⟨0, 1100, 1000, 1⟩ : Portfolio)).peak_value -
            (⟨0, 1100, 1000, 1⟩ : Portfolio).total_value 0) /
            (⟨0, 1100, 1000, 1⟩ : Portfolio).peak_value * 100),
          ⟨0, 1100, 1000, 1⟩)) := by
  have h := risk_check_exact ⟨0, 1100, 1000, 1⟩ 0 20 (by norm_num)
  refine ⟨fun hlt => ?_, fun hle => h.2.1 hle⟩
  have h1 := h.1 hlt
  simpa [Portfolio.total_value] using h1

/-- C8 counterexample: with `peak_value = 0` and current value 0 the
drawdown check faults (division by zero, modelled as `none`) instead of
returning the safe default `drawdown = 0`. -/
theorem risk_check_zero_peak_faults :
    exceed_max_drawdown ⟨0, 0, 0, 0⟩ 1 20 = none := by
  simp only [exceed_max_drawdown, Portfolio.total_value]
  norm_num

/-- C8 amended: the derived `capital_utilization_pct` is special-cased to
the safe default 0 whenever `trading_capital = 0`, but the drawdown check
has no zero-peak guard: whenever `peak_value = 0` and the current value
does not exceed it, the computation divides by zero (modelled as `none`)
instead of returning a safe default. -/
theorem numeric_edge_cases (p : Portfolio) (price mdd : ℚ) :
    (p.trading_capital = 0 → p.capital_utilization_pct = 0) ∧
    (p.peak_value = 0 → p.total_value price ≤ 0 →
      exceed_max_drawdown p price mdd = none) := by
  constructor
  · intro h
    simp [Portfolio.capital_utilization_pct, h]
  · intro hpk hv
    simp only [exceed_max_drawdown]
    rw [if_neg (by rw [hpk]; exact not_lt.mpr hv), if_pos hpk]

/-- Witness for `numeric_edge_cases` at the all-zero portfolio and
price 1. -/
theorem numeric_edge_cases_witness :
    ((⟨0, 0, 0, 0⟩ : Portfolio).trading_capital = 0 →
      (⟨0, 0, 0, 0⟩ : Portfolio).capital_utilization_pct = 0) ∧
    ((⟨0, 0, 0, 0⟩ : Portfolio).peak_value = 0 →
      (⟨0, 0, 0, 0⟩ : Portfolio).total_value 1 ≤ 0 →
      exceed_max_drawdown ⟨0, 0, 0, 0⟩ 1 20 = none) :=
  numeric_edge_cases ⟨0, 0, 0, 0⟩ 1 20

/-- C9 counterexample: the drawdown check is not read-only: on a portfolio
whose current value 2 exceeds the peak 1 it returns a portfolio whose
`peak_value` differs from the input's. -/
theorem risk_check_mutates_peak :
    exceed_max_drawdown ⟨0, 2, 1, 1⟩ 1 20 = some (false, ⟨0, 2, 2, 1⟩) ∧
    (⟨0, 2, 2, 1⟩ : Portfolio) ≠ ⟨0, 2, 1, 1⟩ := by
  constructor
  · simp only [exceed_max_drawdown, Portfolio.total_value]
    norm_num
  · simp

/-- C9 amended: the drawdown check is deterministic (it is a function of
the portfolio, the price and the configured threshold) and modifies no
ledger field except `peak_value`, which becomes the maximum of the old
peak and the current mark-to-market value. -/
theorem risk_check_frame (p : Portfolio) (price mdd : ℚ) (b : Bool) (q : Portfolio)
    (h : exceed_max_drawdown p price mdd = some (b, q)) :
    q.base_balance = p.base_balance ∧ q.quote_balance = p.quote_balance ∧
    q.trading_capital = p.trading_capital ∧
    q.peak_value = max p.peak_value (p.total_value price) := by
  revert h
  simp only [exceed_max_drawdown]
  split_ifs with h1 h2
  · intro h
    obtain ⟨-, rfl⟩ := by simpa using h
    exact ⟨rfl, rfl, rfl, (max_eq_right (le_of_lt h1)).symm⟩
  · intro h
    simp at h
  · intro h
    obtain ⟨-, rfl⟩ := by simpa using h
    exact ⟨rfl, rfl, rfl, (max_eq_left (not_lt.mp h1)).symm⟩

/-- Witness for `risk_check_frame` at a portfolio with peak 1 and current
value 2. -/
theorem risk_check_frame_witness :
    (⟨0, 2, 2, 1⟩ : Portfolio).base_balance = (⟨0, 2, 1, 1⟩ : Portfolio).base_balance ∧
    (⟨0, 2, 2, 1⟩ : Portfolio).quote_balance = (⟨0, 2, 1, 1⟩ : Portfolio).quote_balance ∧
    (⟨0, 2, 2, 1⟩ : Portfolio).trading_capital = (⟨0, 2, 1, 1⟩ : Portfolio).trading_capital ∧
    (⟨0, 2, 2, 1⟩ : Portfolio).peak_value =
      max (⟨0, 2, 1, 1⟩ : Portfolio).peak_value
        ((⟨0, 2, 1, 1⟩ : Portfolio).total_value 1) :=
  risk_check_frame ⟨0, 2, 1, 1⟩ 1 20 false ⟨0, 2, 2, 1⟩
    (by simp only [exceed_max_drawdown, Portfolio.total_value]; norm_num)


/-! ## Execution simulator (src/execution/simulation_client.py) -/

/-- `SimulatedTrade` (src/execution/simulation_client.py lines 14-23),
minus the wall-clock `timestamp` field. -/
structure SimulatedTrade where
  side : String
  amount_sol : ℚ
  price : ℚ
  value_usd : ℚ
  fees_sol : ℚ
  slippage_pct : ℚ
deriving Repr, DecidableEq

/-- `SimulatedPosition` (lines 26-38), minus the wall-clock
`entry_timestamp` field. -/
structure SimulatedPosition where
  entry_price : ℚ
  amount_sol : ℚ
  current_price : ℚ
  unrealized_pnl : ℚ
deriving Repr, DecidableEq

/-- The mutable state of `TradingSimulator` (lines 47-57), minus
`initial_balance` (never mutated) and `start_time` (wall clock). -/
structure SimState where
  sol_balance : ℚ
  usd_balance : ℚ
  trades : List SimulatedTrade
  position : Option SimulatedPosition
  total_fees_paid : ℚ
  realized_pnl : ℚ
deriving Repr, DecidableEq

/-- The result dictionary of a simulated trade: `success` on every branch,
`error` only on failures, `new_balance_sol` only on successes, and
`realized_pnl` only on successful sells. -/
structure TradeResult where
  success : Bool
  error : Option String
  new_balance_sol : Option ℚ
  realized_pnl : Option ℚ
deriving Repr, DecidableEq

/-- The hardcoded fee rate of `TradingSimulator.simulate_trade`
(line 82): 0.25%. -/
def fee_rate : ℚ := 25 / 10000

namespace TradingSimulator

/-- `TradingSimulator._simulate_buy` (lines 96-154).  It checks
`sol_balance >= amount_sol + fees_sol`; on success it applies the adverse
slippage to the price, debits `amount_sol + fees_sol` from the SOL
balance, credits `amount_sol * actual_price` to the USD balance, accrues
fees, appends the trade record and creates or volume-weighted-averages
the position. -/
def simulate_buy (s : SimState) (amount_sol price fees_sol slippage_pct : ℚ) :
    TradeResult × SimState :=
  let total_cost := amount_sol + fees_sol
  if s.sol_balance < total_cost then
    ({ success := false, error := some "Balance insuficiente"
       new_balance_sol := none, realized_pnl := none }, s)
  else
    let actual_price := price * (1 + slippage_pct / 100)
    let value_usd := amount_sol * actual_price
    let trade : SimulatedTrade :=
      { side := "BUY", amount_sol := amount_sol, price := actual_price
        value_usd := value_usd, fees_sol := fees_sol, slippage_pct := slippage_pct }
    let new_position : SimulatedPosition :=
      match s.position with
      | none =>
          { entry_price := actual_price, amount_sol := amount_sol
            current_price := actual_price, unrealized_pnl := 0 }
      | some p =>
          let total_amount := p.amount_sol + amount_sol
          let avg_price :=
            (p.entry_price * p.amount_sol + actual_price * amount_sol) / total_amount
          { p with amount_sol := total_amount, entry_price := avg_price
                   current_price := actual_price }
    let s2 : SimState :=
      { sol_balance := s.sol_balance - total_cost
        usd_balance := s.usd_balance + value_usd
        trades := s.trades ++ [trade]
        position := some new_position
        total_fees_paid := s.total_fees_paid + fees_sol
        realized_pnl := s.realized_pnl }
    ({ success := true, error := none
       new_balance_sol := some s2.sol_balance, realized_pnl := none }, s2)

/-- `TradingSimulator._simulate_sell` (lines 156-207).  It requires an
open position with `amount_sol >= requested`; on success it applies the
adverse slippage, books `amount * actual_price - entry_price * amount` as
realized P&L, credits `amount_sol - fees_sol` to the SOL balance, debits
the USD value, appends the trade record, reduces the position and closes
it (sets it to `none`) when the remaining amount is at most 0.0001. -/
def simulate_sell (s : SimState) (amount_sol price fees_sol slippage_pct : ℚ) :
    TradeResult × SimState :=
  match s.position with
  | none =>
      ({ success := false, error := some "Posicion insuficiente"
         new_balance_sol := none, realized_pnl := none }, s)
  | some p =>
    if p.amount_sol < amount_sol then
      ({ success := false, error := some "Posicion insuficiente"
         new_balance_sol := none, realized_pnl := none }, s)
    else
      let actual_price := price * (1 - slippage_pct / 100)
      let value_usd := amount_sol * actual_price
      let cost_basis := p.entry_price * amount_sol
      let pnl := value_usd - cost_basis
      let remaining := p.amount_sol - amount_sol
      let s2 : SimState :=
        { sol_balance := s.sol_balance + (amount_sol - fees_sol)
          usd_balance := s.usd_balance - value_usd
          trades := s.trades ++
            [{ side := "SELL", amount_sol := amount_sol, price := actual_price
               value_usd := value_usd, fees_sol := fees_sol, slippage_pct := slippage_pct }]
          position :=
            if remaining ≤ 1 / 10000 then none else some { p with amount_sol := remaining }
          total_fees_paid := s.total_fees_paid + fees_sol
          realized_pnl := s.realized_pnl + pnl }
      ({ success := true, error := none
         new_balance_sol := some s2.sol_balance, realized_pnl := some pnl }, s2)

/-- `TradingSimulator.simulate_trade` (lines 65-94).  If
`settings.simulation_mode` is off it raises (line 79); the fee is
`amount_sol * 0.0025` and the slippage percentage, drawn randomly in the
source, is an explicit argument; a side other than BUY or SELL raises
`ValueError` (line 94).  Raises are modelled as `Except.error` paired
with the unchanged state, since the source raises before any mutation. -/
def simulate_trade (simulation_mode : Bool) (side : String)
    (amount_sol price slippage_pct : ℚ) (s : SimState) :
    Except String TradeResult × SimState :=
  if simulation_mode = false then
    (Except.error "NO SE PUEDE SIMULAR - Modo simulacion desactivado", s)
  else
    let fees_sol := amount_sol * fee_rate
    if side = "BUY" then
      let r := simulate_buy s amount_sol price fees_sol slippage_pct
      (Except.ok r.1, r.2)
    else if side = "SELL" then
      let r := simulate_sell s amount_sol price fees_sol slippage_pct
      (Except.ok r.1, r.2)
    else
      (Except.error "Lado invalido", s)

end TradingSimulator


/-- C4 counterexample: with a SOL balance of 1.5, a buy of 1 unit at price
2 succeeds even though `amount * fill_price + fee = 2.0025` exceeds the
balance: the source checks `sol_balance >= amount + fee`, in SOL units,
not `amount * price + fee`. -/
theorem simulate_buy_cost_counterexample :
    (TradingSimulator.simulate_trade true "BUY" 1 2 0 ⟨3/2, 0, [], none, 0, 0⟩).1 =
      Except.ok { success := true, error := none
                  new_balance_sol := some (199/400), realized_pnl := none } ∧
    (3/2 : ℚ) < 1 * (2 * (1 + (0 : ℚ)/100)) + 1 * fee_rate := by
  constructor
  · simp only [TradingSimulator.simulate_trade, TradingSimulator.simulate_buy, fee_rate]
    norm_num
  · simp only [fee_rate]
    norm_num

/-- C4 amended: a simulated buy succeeds exactly when
`sol_balance ≥ amount + fee` (all in SOL units, the fill price playing no
role in the cash check); on success the SOL balance decreases by
`amount + fee`, and otherwise the fill fails with the insufficient-balance
error and the simulator state is unchanged. -/
theorem simulate_buy_cash_rule (s : SimState) (amount price fees slippage : ℚ) :
    (amount + fees ≤ s.sol_balance →
      (TradingSimulator.simulate_buy s amount price fees slippage).1.success = true ∧
      (TradingSimulator.simulate_buy s amount price fees slippage).2.sol_balance =
        s.sol_balance - (amount + fees)) ∧
    (s.sol_balance < amount + fees →
      (TradingSimulator.simulate_buy s amount price fees slippage).1.success = false ∧
      (TradingSimulator.simulate_buy s amount price fees slippage).1.error =
        some "Balance insuficiente" ∧
      (TradingSimulator.simulate_buy s amount price fees slippage).2 = s) := by
  simp only [TradingSimulator.simulate_buy]
  split_ifs with h
  · exact ⟨fun hle => absurd h (not_lt.mpr hle), fun _ => ⟨rfl, rfl, rfl⟩⟩
  · exact ⟨fun _ => ⟨rfl, rfl⟩, fun hlt => absurd hlt h⟩

/-- Witness for `simulate_buy_cash_rule`: balance 2, buy 1 with fee
0.0025. -/
theorem simulate_buy_cash_rule_witness :
    ((1 : ℚ) + 1/400 ≤ 2 →
      (TradingSimulator.simulate_buy ⟨2, 0, [], none, 0, 0⟩ 1 5 (1/400) 0).1.success = true ∧
      (TradingSimulator.simulate_buy ⟨2, 0, [], none, 0, 0⟩ 1 5 (1/400) 0).2.sol_balance =
        2 - (1 + 1/400)) ∧
    ((2 : ℚ) < 1 + 1/400 →
      (TradingSimulator.simulate_buy ⟨2, 0, [], none, 0, 0⟩ 1 5 (1/400) 0).1.success = false ∧
      (TradingSimulator.simulate_buy ⟨2, 0, [], none, 0, 0⟩ 1 5 (1/400) 0).1.error =
        some "Balance insuficiente" ∧
      (TradingSimulator.simulate_buy ⟨2, 0, [], none, 0, 0⟩ 1 5 (1/400) 0).2 =
        ⟨2, 0, [], none, 0, 0⟩) :=
  simulate_buy_cash_rule ⟨2, 0, [], none, 0, 0⟩ 1 5 (1/400) 0

/-- C5 counterexample: selling 1 unit at fill price 2 from a position of
1 unit at entry price 1 with fee 0.0025 credits `amount - fee = 0.9975`
SOL, not `amount * fill_price - fee = 1.9975` as the claim states; and in
a second run, selling 1 unit out of a 1.0001-unit position closes the
position while the realized P&L delta is exactly the sold amount's
`1 * (2 - 1)`, the 0.0001 residue being discarded, not absorbed. -/
theorem simulate_sell_cash_counterexample :
    (TradingSimulator.simulate_trade true "SELL" 1 2 0
        ⟨0, 0, [], some ⟨1, 1, 1, 0⟩, 0, 0⟩).2.sol_balance = 399/400 ∧
    (399/400 : ℚ) ≠ 1 * 2 - 1/400 ∧
    (TradingSimulator.simulate_trade true "SELL" 1 2 0
        ⟨0, 0, [], some ⟨1, 10001/10000, 1, 0⟩, 0, 0⟩).2.position = none ∧
    ¬ ((10001/10000 : ℚ) - 1 < 1/10000) ∧
    (TradingSimulator.simulate_trade true "SELL" 1 2 0
        ⟨0, 0, [], some ⟨1, 10001/10000, 1, 0⟩, 0, 0⟩).2.realized_pnl = 1 * (2 - 1) := by
  refine ⟨?_, by norm_num, ?_, by norm_num, ?_⟩ <;>
    · simp only [TradingSimulator.simulate_trade, TradingSimulator.simulate_sell, fee_rate,
        String.reduceEq, reduceIte]
      norm_num

/-- C5 amended: for a sell of `amount` at adverse fill price
`price * (1 - slippage/100)` against a position `p`: if `amount ≤
p.amount_sol` the fill succeeds, realized P&L increases by
`amount * (fill - p.entry_price)`, the SOL balance increases by
`amount - fee` (SOL units, not `amount * fill - fee`), and the position
decreases by `amount`, becoming absent exactly when the remaining amount
is at most the closing epsilon 0.0001, the residue being discarded; a
sell without a position, or of more than the position amount, fails with
the insufficient-position error and leaves the state unchanged. -/
theorem simulate_sell_rules (s : SimState) (amount price fees slippage : ℚ) :
    (s.position = none →
      (TradingSimulator.simulate_sell s amount price fees slippage).1.success = false ∧
      (TradingSimulator.simulate_sell s amount price fees slippage).1.error =
        some "Posicion insuficiente" ∧
      (TradingSimulator.simulate_sell s amount price fees slippage).2 = s) ∧
    (∀ p : SimulatedPosition, s.position = some p → amount ≤ p.amount_sol →
      (TradingSimulator.simulate_sell s amount price fees slippage).1.success = true ∧
      (TradingSimulator.simulate_sell s amount price fees slippage).2.realized_pnl =
        s.realized_pnl + amount * (price * (1 - slippage / 100) - p.entry_price) ∧
      (TradingSimulator.simulate_sell s amount price fees slippage).2.sol_balance =
        s.sol_balance + (amount - fees) ∧
      (p.amount_sol - amount ≤ 1/10000 →
        (TradingSimulator.simulate_sell s amount price fees slippage).2.position = none) ∧
      (1/10000 < p.amount_sol - amount →
        (TradingSimulator.simulate_sell s amount price fees slippage).2.position =
          some { p with amount_sol := p.amount_sol - amount })) ∧
    (∀ p : SimulatedPosition, s.position = some p → p.amount_sol < amount →
      (TradingSimulator.simulate_sell s amount price fees slippage).1.success = false ∧
      (TradingSimulator.simulate_sell s amount price fees slippage).1.error =
        some "Posicion insuficiente" ∧
      (TradingSimulator.simulate_sell s amount price fees slippage).2 = s) := by
  refine ⟨fun hnone => ?_, fun p hp hle => ?_, fun p hp hlt => ?_⟩
  · simp [TradingSimulator.simulate_sell, hnone]
  · simp only [TradingSimulator.simulate_sell, hp]
    rw [if_neg (not_lt.mpr hle)]
    refine ⟨rfl, by ring, rfl, fun hclose => ?_, fun hopen => ?_⟩
    · simp only []
      rw [if_pos hclose]
    · simp only []
      rw [if_neg (not_le.mpr hopen)]
  · simp only [TradingSimulator.simulate_sell, hp]
    rw [if_pos hlt]
    exact ⟨rfl, rfl, rfl⟩

/-- Witness for `simulate_sell_rules`: selling 1 of a 2-unit position at
entry 1, price 2, no slippage, fee 0.0025. -/
theorem simulate_sell_rules_witness :
    ((⟨0, 0, [], some ⟨1, 2, 1, 0⟩, 0, 0⟩ : SimState).position = none →
      (TradingSimulator.simulate_sell ⟨0, 0, [], some ⟨1, 2, 1, 0⟩, 0, 0⟩
        1 2 (1/400) 0).1.success = false ∧
      (TradingSimulator.simulate_sell ⟨0, 0, [], some ⟨1, 2, 1, 0⟩, 0, 0⟩
        1 2 (1/400) 0).1.error = some "Posicion insuficiente" ∧
      (TradingSimulator.simulate_sell ⟨0, 0, [], some ⟨1, 2, 1, 0⟩, 0, 0⟩
        1 2 (1/400) 0).2 = ⟨0, 0, [], some ⟨1, 2, 1, 0⟩, 0, 0⟩) ∧
    (∀ p : SimulatedPosition,
      (⟨0, 0, [], some ⟨1, 2, 1, 0⟩, 0, 0⟩ : SimState).position = some p →
      (1 : ℚ) ≤ p.amount_sol →
      (TradingSimulator.simulate_sell ⟨0, 0, [], some ⟨1, 2, 1, 0⟩, 0, 0⟩
        1 2 (1/400) 0).1.success = true ∧
      (TradingSimulator.simulate_sell ⟨0, 0, [], some ⟨1, 2, 1, 0⟩, 0, 0⟩
        1 2 (1/400) 0).2.realized_pnl =
        (0 : ℚ) + 1 * (2 * (1 - (0 : ℚ) / 100) - p.entry_price) ∧
      (TradingSimulator.simulate_sell ⟨0, 0, [], some ⟨1, 2, 1, 0⟩, 0, 0⟩
        1 2 (1/400) 0).2.sol_balance = (0 : ℚ) + (1 - 1/400) ∧
      (p.amount_sol - 1 ≤ 1/10000 →
        (TradingSimulator.simulate_sell ⟨0, 0, [], some ⟨1, 2, 1, 0⟩, 0, 0⟩
          1 2 (1/400) 0).2.position = none) ∧
      (1/10000 < p.amount_sol - 1 →
        (TradingSimulator.simulate_sell ⟨0, 0, [], some ⟨1, 2, 1, 0⟩, 0, 0⟩
          1 2 (1/400) 0).2.position = some { p with amount_sol := p.amount_sol - 1 })) ∧
    (∀ p : SimulatedPosition,
      (⟨0, 0, [], some ⟨1, 2, 1, 0⟩, 0, 0⟩ : SimState).position = some p →
      p.amount_sol < 1 →
      (TradingSimulator.simulate_sell ⟨0, 0, [], some ⟨1, 2, 1, 0⟩, 0, 0⟩
        1 2 (1/400) 0).1.success = false ∧
      (TradingSimulator.simulate_sell ⟨0, 0, [], some ⟨1, 2, 1, 0⟩, 0, 0⟩
        1 2 (1/400) 0).1.error = some "Posicion insuficiente" ∧
      (TradingSimulator.simulate_sell ⟨0, 0, [], some ⟨1, 2, 1, 0⟩, 0, 0⟩
        1 2 (1/400) 0).2 = ⟨0, 0, [], some ⟨1, 2, 1, 0⟩, 0, 0⟩) :=
  simulate_sell_rules ⟨0, 0, [], some ⟨1, 2, 1, 0⟩, 0, 0⟩ 1 2 (1/400) 0

/-- C10: calling the simulator with a side other than BUY or SELL, or
with simulation mode disabled, raises (modelled as `Except.error`) rather
than returning a structured failure, and leaves the simulator state
untouched. -/
theorem simulate_trade_invalid_raises (simulation_mode : Bool) (side : String)
    (amount price slippage : ℚ) (s : SimState) :
    (simulation_mode = false →
      TradingSimulator.simulate_trade simulation_mode side amount price slippage s =
        (Except.error "NO SE PUEDE SIMULAR - Modo simulacion desactivado", s)) ∧
    (side ≠ "BUY" → side ≠ "SELL" →
      (∃ e, (TradingSimulator.simulate_trade simulation_mode side amount price
        slippage s).1 = Except.error e) ∧
      (TradingSimulator.simulate_trade simulation_mode side amount price slippage s).2 =
        s) := by
  constructor
  · intro h
    simp only [TradingSimulator.simulate_trade, h]
    rfl
  · intro hb hs
    by_cases hm : simulation_mode = false
    · simp only [TradingSimulator.simulate_trade, if_pos hm]
      exact ⟨⟨_, rfl⟩, trivial⟩
    · simp only [TradingSimulator.simulate_trade, if_neg hm, if_neg hb, if_neg hs]
      exact ⟨⟨_, rfl⟩, trivial⟩

/-- Witness for `simulate_trade_invalid_raises` with side HOLD while
simulation mode is enabled. -/
theorem simulate_trade_invalid_raises_witness :
    (true = false →
      TradingSimulator.simulate_trade true "HOLD" 1 2 0 ⟨1, 0, [], none, 0, 0⟩ =
        (Except.error "NO SE PUEDE SIMULAR - Modo simulacion desactivado",
          ⟨1, 0, [], none, 0, 0⟩)) ∧
    ("HOLD" ≠ "BUY" → "HOLD" ≠ "SELL" →
      (∃ e, (TradingSimulator.simulate_trade true "HOLD" 1 2 0
        ⟨1, 0, [], none, 0, 0⟩).1 = Except.error e) ∧
      (TradingSimulator.simulate_trade true "HOLD" 1 2 0 ⟨1, 0, [], none, 0, 0⟩).2 =
        ⟨1, 0, [], none, 0, 0⟩) :=
  simulate_trade_invalid_raises true "HOLD" 1 2 0 ⟨1, 0, [], none, 0, 0⟩


/-! ## Configuration (src/config.py) -/

/-- The numeric trading configuration of the `Settings` dataclass
(src/config.py lines 66-104), plus the simulation-mode flag.  The string
and key-derivation fields are omitted; no claim concerns them. -/
structure Settings where
  trading_capital_sol : ℚ
  max_position_size_pct : ℚ
  reserve_balance_sol : ℚ
  max_drawdown_pct : ℚ
  simulation_mode : Bool
deriving Repr, DecidableEq

/-- Construction of `Settings` (src/config.py lines 66-104).  The numeric
fields are read from the environment with defaults and stored as given;
`__post_init__` (lines 86-102) only resolves the private key and performs
no range validation, so construction never fails for any numeric values.
The fallible interface (`Except`) records that a construction-time check
would be the place to reject invalid ranges; the source has none. -/
def Settings.construct (trading_capital_sol max_position_size_pct
    reserve_balance_sol max_drawdown_pct : ℚ) (simulation_mode : Bool) :
    Except String Settings :=
  Except.ok
    { trading_capital_sol := trading_capital_sol
      max_position_size_pct := max_position_size_pct
      reserve_balance_sol := reserve_balance_sol
      max_drawdown_pct := max_drawdown_pct
      simulation_mode := simulation_mode }

/-- C7 counterexample: a configuration violating every documented range
(`trading_capital = -1 ≤ 0`, `max_position_size_pct = 200 > 100`,
`reserve_balance = -5 < 0`, `max_drawdown_pct = 0 ∉ (0,100]`) is accepted
at construction: no validation runs and the engine can start with it. -/
theorem settings_construct_accepts_invalid :
    Settings.construct (-1) 200 (-5) 0 true =
      Except.ok
        { trading_capital_sol := -1, max_position_size_pct := 200
          reserve_balance_sol := -5, max_drawdown_pct := 0
          simulation_mode := true } ∧
    ¬ ((0 : ℚ) < -1) ∧ ¬ ((200 : ℚ) ≤ 100) ∧ ¬ ((0 : ℚ) ≤ -5) ∧ ¬ ((0 : ℚ) < 0) := by
  refine ⟨rfl, by norm_num, by norm_num, by norm_num, by norm_num⟩

/-- C7 amended: configuration is read once at construction, but no range
validation is performed there: for every combination of numeric values,
construction succeeds and stores the values unchanged, so an invalid
configuration does not prevent the engine from starting. -/
theorem settings_construct_never_fails (trading_capital_sol max_position_size_pct
    reserve_balance_sol max_drawdown_pct : ℚ) (simulation_mode : Bool) :
    Settings.construct trading_capital_sol max_position_size_pct reserve_balance_sol
        max_drawdown_pct simulation_mode =
      Except.ok
        { trading_capital_sol := trading_capital_sol
          max_position_size_pct := max_position_size_pct
          reserve_balance_sol := reserve_balance_sol
          max_drawdown_pct := max_drawdown_pct
          simulation_mode := simulation_mode } := rfl


/-! ## Volume-weighted average cost over sequences of buys -/

/-- One buy request as issued through `simulate_trade`: requested amount,
quoted price, and the slippage percentage drawn for the fill. -/
structure BuyFill where
  amount_sol : ℚ
  price : ℚ
  slippage_pct : ℚ
deriving Repr, DecidableEq

/-- The adverse fill price of a buy (line 109 of
src/execution/simulation_client.py): `price * (1 + slippage/100)`. -/
def BuyFill.fill_price (f : BuyFill) : ℚ :=
  f.price * (1 + f.slippage_pct / 100)

/-- A sequence of `simulate_trade("BUY", ...)` calls: each fill pays the
fee `amount * fee_rate` computed at line 83; the run aborts (`none`) as
soon as a fill reports failure. -/
def run_buys (s : SimState) : List BuyFill → Option SimState
  | [] => some s
  | f :: rest =>
      let r := TradingSimulator.simulate_buy s f.amount_sol f.price
        (f.amount_sol * fee_rate) f.slippage_pct
      if r.1.success then run_buys r.2 rest else none

/-- Total amount requested over a list of buy fills. -/
def sum_amounts (fills : List BuyFill) : ℚ :=
  (fills.map BuyFill.amount_sol).sum

/-- Total cost (amount times adverse fill price) over a list of buy
fills. -/
def sum_cost (fills : List BuyFill) : ℚ :=
  (fills.map (fun f => f.amount_sol * f.fill_price)).sum

/-- Volume-weighted average of the fill prices, weighted by amount. -/
def vwac (fills : List BuyFill) : ℚ :=
  sum_cost fills / sum_amounts fills

theorem run_buys_cost_invariant (fills : List BuyFill) :
    ∀ (s s' : SimState) (p : SimulatedPosition), s.position = some p →
      0 < p.amount_sol → (∀ f ∈ fills, 0 < f.amount_sol) →
      run_buys s fills = some s' →
      ∃ q : SimulatedPosition, s'.position = some q ∧
        0 < q.amount_sol ∧
        q.amount_sol = p.amount_sol + sum_amounts fills ∧
        q.entry_price * q.amount_sol =
          p.entry_price * p.amount_sol + sum_cost fills := by
  induction fills with
  | nil =>
      intro s s' p hp hpa _ hrun
      simp only [run_buys, Option.some.injEq] at hrun
      subst hrun
      exact ⟨p, hp, hpa, by simp [sum_amounts], by simp [sum_cost]⟩
  | cons f rest ih =>
      intro s s' p hp hpa hall hrun
      simp only [run_buys, TradingSimulator.simulate_buy, hp] at hrun
      by_cases hbal : s.sol_balance < f.amount_sol + f.amount_sol * fee_rate
      · rw [if_pos hbal] at hrun
        simp at hrun
      · rw [if_neg hbal] at hrun
        simp only [if_true, Bool.true_eq] at hrun
        have hf : 0 < f.amount_sol := hall f (List.mem_cons_self f rest)
        have htot : 0 < p.amount_sol + f.amount_sol := by linarith
        obtain ⟨q, hq, hqa, hqam, hqcost⟩ :=
          ih _ s' _ rfl htot (fun g hg => hall g (List.mem_cons_of_mem f hg)) hrun
        refine ⟨q, hq, hqa, ?_, ?_⟩
        · rw [hqam]
          simp only [sum_amounts, List.map_cons, List.sum_cons]
          ring
        · rw [hqcost]
          have hdiv :
              (p.entry_price * p.amount_sol + f.price * (1 + f.slippage_pct / 100) *
                  f.amount_sol) / (p.amount_sol + f.amount_sol) *
                (p.amount_sol + f.amount_sol) =
              p.entry_price * p.amount_sol +
                f.price * (1 + f.slippage_pct / 100) * f.amount_sol :=
            div_mul_cancel₀ _ (ne_of_gt htot)
          simp only [sum_cost, List.map_cons, List.sum_cons, BuyFill.fill_price]
          rw [hdiv]
          ring

/-- C6: starting with no position, after any sequence of successful
buys with positive amounts the open position's amount is the total filled
amount and its entry price is, within 1e-9 (here: exactly), the
volume-weighted average of the adverse fill prices weighted by amount;
moreover each single successful buy onto an open position re-averages by
`new_entry = (old_entry*old_amount + fill_price*amount) / (old_amount +
amount)` and `new_amount = old_amount + amount`. -/
theorem simulate_buy_vwac (s0 : SimState) (fills : List BuyFill) (s' : SimState)
    (hpos : s0.position = none)
    (hamts : ∀ f ∈ fills, 0 < f.amount_sol)
    (hne : fills ≠ [])
    (hrun : run_buys s0 fills = some s') :
    (∃ q : SimulatedPosition, s'.position = some q ∧
      q.amount_sol = sum_amounts fills ∧
      abs (q.entry_price - vwac fills) ≤ 1 / 1000000000) ∧
    (∀ (t : SimState) (p : SimulatedPosition) (f : BuyFill), t.position = some p →
      (TradingSimulator.simulate_buy t f.amount_sol f.price (f.amount_sol * fee_rate)
        f.slippage_pct).1.success = true →
      (TradingSimulator.simulate_buy t f.amount_sol f.price (f.amount_sol * fee_rate)
        f.slippage_pct).2.position =
        some { p with
          amount_sol := p.amount_sol + f.amount_sol
          entry_price := (p.entry_price * p.amount_sol + f.fill_price * f.amount_sol) /
            (p.amount_sol + f.amount_sol)
          current_price := f.fill_price }) := by
  constructor
  · obtain ⟨f, rest, rfl⟩ : ∃ f rest, fills = f :: rest := by
      cases fills with
      | nil => exact absurd rfl hne
      | cons f rest => exact ⟨f, rest, rfl⟩
    simp only [run_buys, TradingSimulator.simulate_buy, hpos] at hrun
    by_cases hbal : s0.sol_balance < f.amount_sol + f.amount_sol * fee_rate
    · rw [if_pos hbal] at hrun
      simp at hrun
    · rw [if_neg hbal] at hrun
      simp only [if_true, Bool.true_eq] at hrun
      have hf : 0 < f.amount_sol := hamts f (List.mem_cons_self f rest)
      obtain ⟨q, hq, hqa, hqam, hqcost⟩ :=
        run_buys_cost_invariant rest _ s' _ rfl hf
          (fun g hg => hamts g (List.mem_cons_of_mem f hg)) hrun
      have hsum : q.amount_sol = sum_amounts (f :: rest) := by
        rw [hqam]
        simp only [sum_amounts, List.map_cons, List.sum_cons]
      have hcost : q.entry_price * q.amount_sol = sum_cost (f :: rest) := by
        rw [hqcost]
        simp only [sum_cost, List.map_cons, List.sum_cons, BuyFill.fill_price]
        ring
      refine ⟨q, hq, hsum, ?_⟩
      have hqa0 : q.amount_sol ≠ 0 := ne_of_gt hqa
      have hentry : q.entry_price = vwac (f :: rest) := by
        rw [vwac, ← hsum, ← hcost, mul_div_assoc, div_self hqa0, mul_one]
      rw [hentry, sub_self, abs_zero]
      norm_num
  · intro t p f hp hsucc
    simp only [TradingSimulator.simulate_buy, hp] at hsucc ⊢
    by_cases hbal : t.sol_balance < f.amount_sol + f.amount_sol * fee_rate
    · rw [if_pos hbal] at hsucc
      simp at hsucc
    · rw [if_neg hbal]
      simp only [BuyFill.fill_price]

/-- Witness for `simulate_buy_vwac`: two unit buys at prices 2 and 4 with
no slippage from a 10-SOL balance end in a 2-unit position at entry price
3, the volume-weighted average. -/
theorem simulate_buy_vwac_witness :
    (⟨10, 0, [], none, 0, 0⟩ : SimState).position = none ∧
    (∀ f ∈ [(⟨1, 2, 0⟩ : BuyFill), ⟨1, 4, 0⟩], 0 < f.amount_sol) ∧
    ([(⟨1, 2, 0⟩ : BuyFill), ⟨1, 4, 0⟩] ≠ []) ∧
    (∃ s' : SimState,
      run_buys ⟨10, 0, [], none, 0, 0⟩ [⟨1, 2, 0⟩, ⟨1, 4, 0⟩] = some s' ∧
      (∃ q : SimulatedPosition, s'.position = some q ∧
        q.amount_sol = sum_amounts [⟨1, 2, 0⟩, ⟨1, 4, 0⟩] ∧
        abs (q.entry_price - vwac [⟨1, 2, 0⟩, ⟨1, 4, 0⟩]) ≤ 1 / 1000000000)) := by
  have hrun : run_buys ⟨10, 0, [], none, 0, 0⟩ [⟨1, 2, 0⟩, ⟨1, 4, 0⟩] =
      some ⟨1599/200, 6, [⟨"BUY", 1, 2, 2, 1/400, 0⟩, ⟨"BUY", 1, 4, 4, 1/400, 0⟩],
        some ⟨3, 2, 4, 0⟩, 1/200, 0⟩ := by
    simp only [run_buys, TradingSimulator.simulate_buy, fee_rate]
    norm_num
  refine ⟨rfl, by norm_num, by simp, ⟨_, hrun, ?_⟩⟩
  exact (simulate_buy_vwac ⟨10, 0, [], none, 0, 0⟩ [⟨1, 2, 0⟩, ⟨1, 4, 0⟩] _
    rfl (by norm_num) (by simp) hrun).1


/-! ## Engine ticks (src/bot.py, TradingBot.step) -/

/-- Helper: with a positive peak the drawdown check cannot fault, and it
preserves the balances while raising the peak to the maximum of the old
peak and the current value. -/
theorem exceed_some_of_peak_pos (p : Portfolio) (price mdd : ℚ)
    (hpk : 0 < p.peak_value) :
    ∃ (b : Bool) (p1 : Portfolio), exceed_max_drawdown p price mdd = some (b, p1) ∧
      p1.quote_balance = p.quote_balance ∧ p1.base_balance = p.base_balance ∧
      p1.trading_capital = p.trading_capital ∧
      p1.peak_value = max p.peak_value (p.total_value price) := by
  simp only [exceed_max_drawdown]
  by_cases h : p.peak_value < p.total_value price
  · rw [if_pos h]
    exact ⟨false, _, rfl, rfl, rfl, rfl, (max_eq_right (le_of_lt h)).symm⟩
  · rw [if_neg h, if_neg (ne_of_gt hpk)]
    exact ⟨_, p, rfl, rfl, rfl, rfl, (max_eq_left (not_lt.mp h)).symm⟩

/-- The trade phase of `TradingBot.step` (src/bot.py lines 65-159) after
the risk check has run on the portfolio: a breach with an open position
liquidates it; a BUY signal sizes the trade as
`min(calculate_max_trade_size, get_available_capital)`, validates it and
requires a sufficient quote balance before buying (fee 0.0 as passed by
the bot); a SELL signal with an open position sells it entirely;
otherwise no trade executes. -/
def TradingBot.trade_phase (max_position_size_pct : ℚ) (breached : Bool)
    (p1 : Portfolio) (price : ℚ) (sig : String) : Portfolio :=
  if breached = true ∧ 0 < p1.base_balance then
    p1.update_from_trade_real "SELL" p1.base_balance price 0
  else if sig = "BUY" then
    let trade_size := min (Portfolio.calculate_max_trade_size max_position_size_pct p1)
      p1.get_available_capital
    if (Portfolio.validate_trade_size max_position_size_pct p1 trade_size).valid = true ∧
        0 < trade_size ∧ trade_size * price ≤ p1.quote_balance then
      p1.update_from_trade_real "BUY" trade_size price 0
    else p1
  else if sig = "SELL" ∧ 0 < p1.base_balance then
    p1.update_from_trade_real "SELL" p1.base_balance price 0
  else p1

/-- One tick of `TradingBot.step` in real-money mode for a resolved price:
the drawdown check runs first (possibly updating the peak, possibly
faulting on a zero peak), then the trade phase commits at most one trade.
The trading signal, computed by `generate_signal` from the price history
in the source, is an explicit input, so the theorems below hold for every
possible signal value. -/
def TradingBot.tick (max_position_size_pct max_drawdown_pct : ℚ) (p : Portfolio)
    (price : ℚ) (sig : String) : Option Portfolio :=
  (exceed_max_drawdown p price max_drawdown_pct).map fun r =>
    TradingBot.trade_phase max_position_size_pct r.1 r.2 price sig

/-- A sequence of engine ticks, each consuming one (price, signal) pair. -/
def TradingBot.run_ticks (max_position_size_pct max_drawdown_pct : ℚ)
    (p : Portfolio) : List (ℚ × String) → Option Portfolio
  | [] => some p
  | (price, sig) :: rest =>
      match TradingBot.tick max_position_size_pct max_drawdown_pct p price sig with
      | none => none
      | some p2 => TradingBot.run_ticks max_position_size_pct max_drawdown_pct p2 rest

/-- The mark-to-market value observed by the risk check at each tick of a
run. -/
def TradingBot.observed_values (max_position_size_pct max_drawdown_pct : ℚ)
    (p : Portfolio) : List (ℚ × String) → List ℚ
  | [] => []
  | (price, sig) :: rest =>
      p.total_value price ::
        (match TradingBot.tick max_position_size_pct max_drawdown_pct p price sig with
         | none => []
         | some p2 =>
            TradingBot.observed_values max_position_size_pct max_drawdown_pct p2 rest)

/-- The inductive ledger invariant: non-negative cash and base balances
and a positive peak. -/
def LedgerInv (p : Portfolio) : Prop :=
  0 ≤ p.quote_balance ∧ 0 ≤ p.base_balance ∧ 0 < p.peak_value

/-- Helper: the trade phase keeps both balances non-negative and never
touches the peak. -/
theorem trade_phase_preserves (mpp : ℚ) (breached : Bool) (p1 : Portfolio)
    (price : ℚ) (sig : String) (hq : 0 ≤ p1.quote_balance)
    (hb : 0 ≤ p1.base_balance) (hpr : 0 ≤ price) :
    0 ≤ (TradingBot.trade_phase mpp breached p1 price sig).quote_balance ∧
    0 ≤ (TradingBot.trade_phase mpp breached p1 price sig).base_balance ∧
    (TradingBot.trade_phase mpp breached p1 price sig).peak_value = p1.peak_value := by
  simp only [TradingBot.trade_phase, Portfolio.update_from_trade_real,
    String.reduceEq, reduceIte]
  split_ifs with h1 h2 h3 h4
  · refine ⟨?_, by simp, rfl⟩
    have := mul_nonneg hb hpr
    simp only []
    linarith
  · obtain ⟨-, hpos, hle⟩ := h3
    refine ⟨by simp only []; linarith, by simp only []; linarith, rfl⟩
  · exact ⟨hq, hb, rfl⟩
  · refine ⟨?_, by simp, rfl⟩
    have := mul_nonneg hb hpr
    simp only []
    linarith
  · exact ⟨hq, hb, rfl⟩

/-- Helper: one tick preserves the ledger invariant, never decreases the
peak, and raises the peak at least to the value observed by the risk
check. -/
theorem tick_preserves (mpp mdd : ℚ) (p : Portfolio) (price : ℚ) (sig : String)
    (hinv : LedgerInv p) (hpr : 0 ≤ price) :
    ∃ p', TradingBot.tick mpp mdd p price sig = some p' ∧ LedgerInv p' ∧
      p.peak_value ≤ p'.peak_value ∧ p.total_value price ≤ p'.peak_value := by
  obtain ⟨hq, hb, hpk⟩ := hinv
  obtain ⟨b, p1, he, hq1, hb1, -, hpk1⟩ := exceed_some_of_peak_pos p price mdd hpk
  obtain ⟨hq2, hb2, hpk2⟩ :=
    trade_phase_preserves mpp b p1 price sig (hq1 ▸ hq) (hb1 ▸ hb) hpr
  refine ⟨TradingBot.trade_phase mpp b p1 price sig, ?_, ⟨hq2, hb2, ?_⟩, ?_, ?_⟩
  · simp only [TradingBot.tick, he]
    rfl
  · rw [hpk2, hpk1]
    exact lt_of_lt_of_le hpk (le_max_left _ _)
  · rw [hpk2, hpk1]
    exact le_max_left _ _
  · rw [hpk2, hpk1]
    exact le_max_right _ _

/-- Helper: a run of ticks from an invariant state completes, preserves
the invariant, never decreases the peak, and ends with a peak at least
every observed mark-to-market value. -/
theorem run_ticks_invariant (mpp mdd : ℚ) (inputs : List (ℚ × String)) :
    ∀ p : Portfolio, LedgerInv p → (∀ i ∈ inputs, 0 ≤ i.1) →
      ∃ p', TradingBot.run_ticks mpp mdd p inputs = some p' ∧ LedgerInv p' ∧
        p.peak_value ≤ p'.peak_value ∧
        ∀ v ∈ TradingBot.observed_values mpp mdd p inputs, v ≤ p'.peak_value := by
  induction inputs with
  | nil =>
      intro p hinv _
      exact ⟨p, rfl, hinv, le_refl _, by simp [TradingBot.observed_values]⟩
  | cons i rest ih =>
      intro p hinv hprices
      obtain ⟨price, sig⟩ := i
      have hpr : 0 ≤ price := hprices (price, sig) (List.mem_cons_self _ _)
      obtain ⟨p1, htick, hinv1, hmono1, hobs1⟩ := tick_preserves mpp mdd p price sig hinv hpr
      obtain ⟨p', hrun, hinv2, hmono2, hobs2⟩ :=
        ih p1 hinv1 (fun j hj => hprices j (List.mem_cons_of_mem _ hj))
      refine ⟨p', ?_, hinv2, le_trans hmono1 hmono2, ?_⟩
      · simp only [TradingBot.run_ticks, htick]
        exact hrun
      · intro v hv
        simp only [TradingBot.observed_values, htick, List.mem_cons] at hv
        rcases hv with rfl | hv
        · exact le_trans hobs1 hmono2
        · exact hobs2 v hv


/-- C2: starting from the initial ledger (cash = peak = trading_capital >
0), after every prefix of engine ticks with non-negative prices the run
commits successfully, the cash balance is non-negative, and the peak is
at least every mark-to-market value observed by the risk check at any
prior tick. -/
theorem ledger_invariant_after_every_commit (max_position_size_pct max_drawdown_pct
    trading_capital : ℚ) (inputs pre suf : List (ℚ × String))
    (hc : 0 < trading_capital) (hsplit : inputs = pre ++ suf)
    (hprices : ∀ i ∈ inputs, 0 ≤ i.1) :
    ∃ q, TradingBot.run_ticks max_position_size_pct max_drawdown_pct
        (Portfolio.init trading_capital) pre = some q ∧
      0 ≤ q.quote_balance ∧
      ∀ v ∈ TradingBot.observed_values max_position_size_pct max_drawdown_pct
          (Portfolio.init trading_capital) pre, v ≤ q.peak_value := by
  have hpre : ∀ i ∈ pre, 0 ≤ i.1 := by
    intro i hi
    exact hprices i (hsplit ▸ List.mem_append_left suf hi)
  have hinv : LedgerInv (Portfolio.init trading_capital) :=
    ⟨le_of_lt hc, le_refl 0, hc⟩
  obtain ⟨q, hrun, ⟨hq, -, -⟩, -, hobs⟩ :=
    run_ticks_invariant max_position_size_pct max_drawdown_pct pre
      (Portfolio.init trading_capital) hinv hpre
  exact ⟨q, hrun, hq, hobs⟩

/-- Witness for `ledger_invariant_after_every_commit`: capital 1, a
two-tick run (HOLD at price 1, then BUY at price 2) split after the first
tick. -/
theorem ledger_invariant_after_every_commit_witness :
    (0 : ℚ) < 1 ∧
    ([((1 : ℚ), "HOLD"), ((2 : ℚ), "BUY")] =
      [((1 : ℚ), "HOLD")] ++ [((2 : ℚ), "BUY")]) ∧
    (∀ i ∈ [((1 : ℚ), "HOLD"), ((2 : ℚ), "BUY")], 0 ≤ i.1) ∧
    ∃ q, TradingBot.run_ticks 80 20 (Portfolio.init 1) [((1 : ℚ), "HOLD")] = some q ∧
      0 ≤ q.quote_balance ∧
      ∀ v ∈ TradingBot.observed_values 80 20 (Portfolio.init 1) [((1 : ℚ), "HOLD")],
        v ≤ q.peak_value :=
  ⟨by norm_num, rfl, by norm_num,
    ledger_invariant_after_every_commit 80 20 1
      [((1 : ℚ), "HOLD"), ((2 : ℚ), "BUY")] [((1 : ℚ), "HOLD")] [((2 : ℚ), "BUY")]
      (by norm_num) rfl (by norm_num)⟩

end SolanaTrade
